import Mathlib

/-!
Verification of `create_icon.py` (RayLink repository).

The script is a one-shot asset generator: it paints a 1024×1024 gradient
canvas with a vignette and a glowing "R" glyph via PIL drawing calls, saves
it as `AppIcon.png`, and writes a fixed `Contents.json` metadata document.
An `if __name__ == "__main__"` guard wraps the routine in a try/except that
is meant to write a tiny placeholder PNG when PIL is missing.

The embedding models a run as the list of observable side effects
(drawing calls on the canvas, file writes, printed status lines) produced
as a function of the environment: whether PIL imports, and the glyph
bounding box reported by the font engine.

Floating point: every arithmetic expression in the script evaluates, in
IEEE-754 double precision, to a truncated integer identical to the floor
of the exact rational value (the gradient and glow operands are dyadic
rationals far below 2^53, hence exact; for the vignette factor 0.3 the
result of truncation was checked to coincide with exact 3/10 arithmetic at
every radius used, the nearest crossing being 1/512 away while the float
error is below 10^-13). The embedding therefore computes in ℚ with
`Int.floor`; all values floored are nonnegative, so the Python
truncation-toward-zero `int()` agrees with the floor.
-/

set_option autoImplicit false

namespace CreateIcon

/-- An RGBA color tuple as passed to a PIL drawing call. -/
structure Color where
  red : ℤ
  green : ℤ
  blue : ℤ
  alpha : ℤ
deriving DecidableEq

/-- One observable side effect of the script: a drawing call on the canvas,
a file save/write, or a printed status line. Drawing calls are recorded
with the exact arguments handed to PIL. -/
inductive Event where
  | rect (x0 y0 x1 y1 : ℤ) (fill : Color)
  | ellipse (x0 y0 x1 y1 : ℤ) (outline : Color) (width : ℕ)
  | glyph (x y : ℤ) (s : String) (fill : Color)
  | savePng (path : String)
  | writeTextFile (path : String) (content : String)
  | writeBinaryFile (path : String) (content : List ℕ)
  | status (s : String)
deriving DecidableEq

/-- The environment a run depends on: whether the PIL import succeeds, and
the glyph bounding box `draw.textbbox((0, 0), "R", font=font)` reports —
`(left, top, right, bottom)` — an external value produced by whichever
font was loaded (Helvetica or the default fallback). -/
structure Env where
  pil : Bool
  bboxLeft : ℤ
  bboxTop : ℤ
  bboxRight : ℤ
  bboxBottom : ℤ
deriving DecidableEq

/-- The canvas edge length: `size = 1024`. -/
def size : ℕ := 1024

/-- The `icon_path` constant of the script. -/
def iconPath : String :=
  "/Users/alisimacpro/Desktop/RayLink/RayLink/Assets.xcassets/AppIcon.appiconset/AppIcon.png"

/-- The `contents_path` constant of the script. -/
def contentsPath : String :=
  "/Users/alisimacpro/Desktop/RayLink/RayLink/Assets.xcassets/AppIcon.appiconset/Contents.json"

/-- The per-row fraction `progress = y / size` (exact in doubles: dyadic, at most 11 significant bits). -/
def gradProgress (y : ℕ) : ℚ := (y : ℚ) / (size : ℚ)

/-- The red channel `r = int(100 * (1 - progress) + 40 * progress)`. -/
def gradR (y : ℕ) : ℤ := ⌊100 * (1 - gradProgress y) + 40 * gradProgress y⌋

/-- The green channel `g = int(50 * (1 - progress) + 100 * progress)`. -/
def gradG (y : ℕ) : ℤ := ⌊50 * (1 - gradProgress y) + 100 * gradProgress y⌋

/-- The blue channel `b = int(255 * (1 - progress) + 255 * progress)`. -/
def gradB (y : ℕ) : ℤ := ⌊255 * (1 - gradProgress y) + 255 * gradProgress y⌋

/-- The gradient loop: for y in range(size):
`draw.rectangle([(0, y), (size, y+1)], fill=(r, g, b, 255))`. -/
def gradientEvents : List Event :=
  (List.range size).map fun (y : ℕ) =>
    Event.rect 0 (y : ℤ) (size : ℤ) ((y : ℤ) + 1) ⟨gradR y, gradG y, gradB y, 255⟩

/-- The starting radius of the vignette loop: `size // 4 = 256`. -/
def maxRadius : ℕ := size / 4

/-- The canvas center coordinate: `size // 2 = 512`. -/
def half : ℤ := (size : ℤ) / 2

/-- The outline alpha `alpha = int(255 * (1 - i/(size//4)) * 0.3)` as an
exact-rational model of the float expression; agreement with the doubles was
checked at every radius used. -/
def vigAlpha (i : ℕ) : ℤ := ⌊255 * (1 - (i : ℚ) / (maxRadius : ℚ)) * (3 / 10)⌋

/-- The loop radii `range(size//4, 0, -1)` = [256, 255, ..., 1]. -/
def vignetteRadii : List ℕ := (List.range maxRadius).map fun k => maxRadius - k

/-- The vignette loop: concentric ellipse outlines of width 2, centered at
(size//2, size//2), radius i from 256 down to 1. -/
def vignetteEvents : List Event :=
  vignetteRadii.map fun (i : ℕ) =>
    Event.ellipse (half - (i : ℤ)) (half - (i : ℤ)) (half + (i : ℤ)) (half + (i : ℤ))
      ⟨255, 255, 255, vigAlpha i⟩ 2

/-- The measured glyph width `text_width = bbox[2] - bbox[0]`. -/
def textWidth (e : Env) : ℤ := e.bboxRight - e.bboxLeft

/-- The measured glyph height `text_height = bbox[3] - bbox[1]`. -/
def textHeight (e : Env) : ℤ := e.bboxBottom - e.bboxTop

/-- The placement `x = (size - text_width) // 2` (Python floor division). -/
def textX (e : Env) : ℤ := Int.fdiv ((size : ℤ) - textWidth e) 2

/-- The placement `y = (size - text_height) // 2 - text_height // 10` (Python
floor division). -/
def textY (e : Env) : ℤ :=
  Int.fdiv ((size : ℤ) - textHeight e) 2 - Int.fdiv (textHeight e) 10

/-- The glow pass offsets `range(10, 0, -1)` = [10, 9, ..., 1]. -/
def glowOffsets : List ℕ := (List.range 10).map fun k => 10 - k

/-- The glow alpha `alpha = int(255 * (1 - offset/10) * 0.5)` as an
exact-rational model of the float expression; agreement with the doubles was
checked at every offset used. -/
def glowAlpha (o : ℕ) : ℤ := ⌊255 * (1 - (o : ℚ) / 10) * (1 / 2)⌋

/-- The glow loop: `draw.text((x, y), "R", font=font, fill=(255,255,255,alpha))`
for offset from 10 down to 1, always at the same position. -/
def glowEvents (e : Env) : List Event :=
  glowOffsets.map fun o =>
    Event.glyph (textX e) (textY e) "R" ⟨255, 255, 255, glowAlpha o⟩

/-- The final full-opacity render: `draw.text((x, y), "R", ..., fill=(255,255,255,255))`. -/
def mainTextEvent (e : Env) : Event :=
  Event.glyph (textX e) (textY e) "R" ⟨255, 255, 255, 255⟩

/-- A JSON value, as handled by the Python `json` module for this script. -/
inductive Json where
  | str (s : String)
  | num (n : ℤ)
  | arr (elems : List Json)
  | obj (fields : List (String × Json))

/-- The `contents` dict built by the script (insertion order preserved). -/
def contents : Json :=
  Json.obj
    [("images", Json.arr
        [Json.obj
          [("filename", Json.str "AppIcon.png"),
           ("idiom", Json.str "universal"),
           ("platform", Json.str "ios"),
           ("size", Json.str "1024x1024")]]),
     ("info", Json.obj
        [("author", Json.str "xcode"),
         ("version", Json.num 1)])]

/-- Field lookup in a JSON object (first match, like parsed-dict access). -/
def Json.lookupField (j : Json) (k : String) : Option Json :=
  match j with
  | Json.obj fs => fs.lookup k
  | _ => none

/-- A run of `n` spaces. -/
def spacesStr (n : ℕ) : String := String.mk (List.replicate n ' ')

mutual

/-- The Python `json.dump(·, f, indent=2)` serialization: keys in insertion
order, items separated by comma plus newline, object and array braces on
lines of their own, nested content indented two further spaces (documented
Python behavior for `indent=2` with default separators). -/
def dumpJson (ind : ℕ) : Json → String
  | Json.str s => "\x22" ++ s ++ "\x22"
  | Json.num n => toString n
  | Json.arr [] => "[]"
  | Json.arr (x :: xs) =>
      "[\n" ++ dumpElems (ind + 2) x xs ++ "\n" ++ spacesStr ind ++ "]"
  | Json.obj [] => "\x7b\x7d"
  | Json.obj (f :: fs) =>
      "\x7b\n" ++ dumpFields (ind + 2) f fs ++ "\n" ++ spacesStr ind ++ "\x7d"
termination_by j => sizeOf j

/-- Serialize the elements of a nonempty array at indent `ind`. -/
def dumpElems (ind : ℕ) (x : Json) (xs : List Json) : String :=
  match xs with
  | [] => spacesStr ind ++ dumpJson ind x
  | y :: ys => spacesStr ind ++ dumpJson ind x ++ ",\n" ++ dumpElems ind y ys
termination_by sizeOf x + sizeOf xs

/-- Serialize the fields of a nonempty object at indent `ind`. -/
def dumpFields (ind : ℕ) (f : String × Json) (fs : List (String × Json)) : String :=
  match fs with
  | [] => spacesStr ind ++ "\x22" ++ f.1 ++ "\x22: " ++ dumpJson ind f.2
  | g :: gs =>
      spacesStr ind ++ "\x22" ++ f.1 ++ "\x22: " ++ dumpJson ind f.2 ++ ",\n"
        ++ dumpFields ind g gs
termination_by sizeOf f + sizeOf fs
decreasing_by
  all_goals simp_wf
  all_goals obtain ⟨a, b⟩ := f
  all_goals simp [Prod.mk.sizeOf_spec]
  all_goals omega

end

/-- The bytes written to `Contents.json`: `json.dump(contents, f, indent=2)`. -/
def contentsDump : String := dumpJson 0 contents

/-- The full success-path routine `create_app_icon()`, as the sequence of
side effects it performs. -/
def create_app_icon (e : Env) : List Event :=
  gradientEvents ++ vignetteEvents ++ glowEvents e ++ [mainTextEvent e]
    ++ [Event.savePng iconPath,
        Event.status ("✅ Created app icon: " ++ iconPath),
        Event.writeTextFile contentsPath contentsDump,
        Event.status "✅ Updated Contents.json"]

/-- The 70 bytes the script decodes, via `base64.b64decode`, from its
embedded literal: the placeholder PNG. -/
def png_data : List ℕ :=
  [137, 80, 78, 71, 13, 10, 26, 10, 0, 0, 0, 13, 73, 72, 68, 82,
   0, 0, 0, 1, 0, 0, 0, 1, 8, 6, 0, 0, 0, 31, 21, 196,
   137, 0, 0, 0, 13, 73, 68, 65, 84, 120, 218, 99, 100, 96, 248, 95,
   15, 0, 2, 135, 1, 128, 235, 71, 186, 146, 0, 0, 0, 0, 73, 69,
   78, 68, 174, 66, 96, 130]

/-- The `except ImportError` branch of the main guard (lines 92-105):
print the warning, write the placeholder bytes to the icon path, print
the placeholder status line. -/
def fallbackEvents : List Event :=
  [Event.status "⚠️  PIL not installed. Using fallback method...",
   Event.writeBinaryFile iconPath png_data,
   Event.status "✅ Created placeholder app icon"]

/-- The body of the `if __name__ == "__main__"` guard (lines 88-105): try
the PIL import and the full routine, fall back on ImportError. -/
def mainGuard (e : Env) : List Event :=
  if e.pil then create_app_icon e else fallbackEvents

/-- Running the script as a program. The module body executes before the
main guard, and its line-4 `from PIL import Image, ImageDraw, ImageFont`
raises an uncaught ImportError when PIL is absent — so the try/except of
the guard is never reached in that case and the process dies having
written nothing. -/
def runScript (e : Env) : Except String (List Event) :=
  if e.pil then Except.ok (mainGuard e) else Except.error "ImportError"

/-- The side effects a run actually performs (none when the module import
aborts the process). -/
def scriptWrites (e : Env) : List Event :=
  match runScript e with
  | Except.ok evs => evs
  | Except.error _ => []

/-- The run wrote some content to the metadata path. -/
def writesContentsJson (evs : List Event) : Prop :=
  ∃ c, Event.writeTextFile contentsPath c ∈ evs

/-- The run wrote the placeholder bytes to the icon path. -/
def writesFallbackPng (evs : List Event) : Prop :=
  Event.writeBinaryFile iconPath png_data ∈ evs

/-- The run saved the full rendered icon to the icon path. -/
def savesIconPng (evs : List Event) : Prop :=
  Event.savePng iconPath ∈ evs

/-- Select, from one event, the content it writes to the metadata path. -/
def metadataPick (ev : Event) : Option String :=
  match ev with
  | Event.writeTextFile p c => if p = contentsPath then some c else none
  | _ => none

/-- The contents written to the metadata path, in order. -/
def metadataWritesOf (evs : List Event) : List String :=
  evs.filterMap metadataPick

/-! ## Helper lemmas -/

lemma scriptWrites_of_pil {e : Env} (h : e.pil = true) :
    scriptWrites e = create_app_icon e := by
  simp [scriptWrites, runScript, mainGuard, h]

lemma scriptWrites_of_not_pil {e : Env} (h : e.pil = false) :
    scriptWrites e = [] := by
  simp [scriptWrites, runScript, h]

lemma create_app_icon_no_fallback (e : Env) :
    ¬ writesFallbackPng (create_app_icon e) := by
  intro h
  simp [writesFallbackPng, create_app_icon, gradientEvents, vignetteEvents, glowEvents,
    mainTextEvent, List.mem_append, List.mem_map] at h

lemma filterMap_comp_none {α : Type} (l : List α) (g : α → Event)
    (h : ∀ a, metadataPick (g a) = none) : l.filterMap (metadataPick ∘ g) = [] := by
  induction l with
  | nil => rfl
  | cons a t ih => simp [List.filterMap_cons, Function.comp, h, ih]

lemma metadataWritesOf_create (e : Env) :
    metadataWritesOf (create_app_icon e) = [contentsDump] := by
  unfold metadataWritesOf create_app_icon gradientEvents vignetteEvents glowEvents
  simp only [List.filterMap_append, List.filterMap_map]
  rw [filterMap_comp_none, filterMap_comp_none, filterMap_comp_none]
  · simp [List.filterMap_cons, metadataPick, mainTextEvent]
  · intro a; rfl
  · intro a; rfl
  · intro a; rfl

lemma glowAlpha_values :
    glowOffsets.map glowAlpha = [0, 12, 25, 38, 51, 63, 76, 89, 102, 114] := by
  have h : glowOffsets = [10, 9, 8, 7, 6, 5, 4, 3, 2, 1] := by decide
  rw [h]
  simp only [List.map]
  norm_num [glowAlpha]

lemma gradG_closed (y : ℕ) : gradG y = ((51200 + 50 * y) / 1024 : ℕ) := by
  have harg : (50 : ℚ) * (1 - gradProgress y) + 100 * gradProgress y
      = (((51200 + 50 * y : ℕ) : ℤ) : ℚ) / ((1024 : ℕ) : ℚ) := by
    unfold gradProgress size
    push_cast
    ring
  rw [gradG, harg, Rat.floor_intCast_div_natCast]
  norm_cast

lemma gradG_lt_100 (y : ℕ) (hy : y < size) : gradG y < 100 := by
  rw [gradG_closed]
  have h : ((51200 + 50 * y) / 1024 : ℕ) < 100 := by
    rw [Nat.div_lt_iff_lt_mul (by norm_num)]
    unfold size at hy
    omega
  exact_mod_cast h

lemma gradB_eq (y : ℕ) : gradB y = 255 := by
  have h : (255 : ℚ) * (1 - gradProgress y) + 255 * gradProgress y = 255 := by ring
  rw [gradB, h]
  norm_num

lemma gradProgress_lt_one (y : ℕ) (hy : y < size) : gradProgress y < 1 := by
  unfold gradProgress size
  rw [div_lt_one (by norm_num)]
  exact_mod_cast (by unfold size at hy; omega : y < 1024)

lemma fdiv_natCast_eq_floor (a : ℤ) (d : ℕ) (hd : d ≠ 0) :
    Int.fdiv a (d : ℤ) = ⌊(a : ℚ) / (d : ℚ)⌋ := by
  rw [Rat.floor_intCast_div_natCast, Int.fdiv_eq_ediv _ (by positivity)]

/-- A JSON value transcribing the concrete metadata document given in the
concrete scenario of the specification (written from the words of the spec,
for comparison with `contents`). -/
def specScenarioContents : Json :=
  Json.obj
    [("images", Json.arr
        [Json.obj
          [("filename", Json.str "AppIcon.png"),
           ("idiom", Json.str "universal"),
           ("platform", Json.str "ios"),
           ("size", Json.str "1024x1024")]]),
     ("info", Json.obj
        [("author", Json.str "xcode"),
         ("version", Json.num 1)])]

lemma fdiv_two_eq_floor (a : ℤ) : Int.fdiv a 2 = ⌊(a : ℚ) / 2⌋ := by
  rw [show (2 : ℚ) = ((2 : ℕ) : ℚ) by norm_num, ← fdiv_natCast_eq_floor a 2 (by norm_num)]
  norm_num

lemma fdiv_ten_eq_floor (a : ℤ) : Int.fdiv a 10 = ⌊(a : ℚ) / 10⌋ := by
  rw [show (10 : ℚ) = ((10 : ℕ) : ℚ) by norm_num, ← fdiv_natCast_eq_floor a 10 (by norm_num)]
  norm_num

/-! ## Claims -/

/-- C1: the claim says the fallback write is reachable whenever PIL is
absent; on the code it is not. With PIL absent the line-4 module-level
PIL import raises an uncaught ImportError before the main guard runs: the
script errors out and writes nothing. The placeholder branch of the guard
(which would write the decoded constant — 70 bytes, not the stated 68 —
and print the placeholder line) is dead code. -/
theorem c1_pil_absent_aborts_before_fallback (e : Env) (h : e.pil = false) :
    runScript e = Except.error "ImportError" ∧ scriptWrites e = [] ∧
    mainGuard e = fallbackEvents ∧ png_data.length = 70 := by
  refine ⟨?_, scriptWrites_of_not_pil h, ?_, by decide⟩
  · simp [runScript, h]
  · simp [mainGuard, h]

/-- Witness for C1 at a concrete PIL-less environment. -/
theorem c1_pil_absent_aborts_before_fallback_witness :
    (Env.mk false 0 0 0 0).pil = false ∧
    (runScript (Env.mk false 0 0 0 0) = Except.error "ImportError" ∧
     scriptWrites (Env.mk false 0 0 0 0) = [] ∧
     mainGuard (Env.mk false 0 0 0 0) = fallbackEvents ∧ png_data.length = 70) :=
  ⟨rfl, c1_pil_absent_aborts_before_fallback (Env.mk false 0 0 0 0) rfl⟩

/-- C2: per run at most one of the two outcomes occurs — the fallback
bitmap is never written together with the icon save or the metadata write —
and the fallback branch itself contains no metadata write. -/
theorem c2_outcome_exclusive (e : Env) :
    ¬ (writesFallbackPng (scriptWrites e) ∧
        (savesIconPng (scriptWrites e) ∨ writesContentsJson (scriptWrites e))) ∧
    ¬ writesContentsJson fallbackEvents := by
  constructor
  · rintro ⟨hf, _⟩
    cases hp : e.pil with
    | false =>
      rw [scriptWrites_of_not_pil hp] at hf
      simp [writesFallbackPng] at hf
    | true =>
      rw [scriptWrites_of_pil hp] at hf
      exact create_app_icon_no_fallback e hf
  · intro h
    simp [writesContentsJson, fallbackEvents] at h

/-- C3 counterexample: the claim says the glow alpha decreases from one
pass to the next; in the code the first pass has alpha 0 and the second
alpha 12, so the sequence of pass alphas is not decreasing. -/
theorem c3_counterexample :
    (glowOffsets.map glowAlpha)[0]? = some 0 ∧
    (glowOffsets.map glowAlpha)[1]? = some 12 ∧
    ¬ List.Chain' (fun a b : ℤ => b < a) (glowOffsets.map glowAlpha) := by
  refine ⟨by rw [glowAlpha_values]; rfl, by rw [glowAlpha_values]; rfl, ?_⟩
  intro h
  rw [glowAlpha_values] at h
  have h1 := (List.chain'_cons.mp h).1
  omega

/-- C3 amended: the glyph is rendered ten times at the same position with
alpha increasing from pass to pass (0, 12, ..., 114), followed by one final
render at full opacity 255. -/
theorem c3_amended_glow_alpha_increases (e : Env) :
    glowEvents e = glowOffsets.map (fun o =>
      Event.glyph (textX e) (textY e) "R" ⟨255, 255, 255, glowAlpha o⟩) ∧
    glowOffsets.map glowAlpha = [0, 12, 25, 38, 51, 63, 76, 89, 102, 114] ∧
    List.Chain' (fun a b : ℤ => a < b) (glowOffsets.map glowAlpha) ∧
    mainTextEvent e = Event.glyph (textX e) (textY e) "R" ⟨255, 255, 255, 255⟩ := by
  refine ⟨rfl, glowAlpha_values, ?_, rfl⟩
  rw [glowAlpha_values]
  simp [List.chain'_cons]

/-- C4 counterexample: the claim says the interpolation fraction reaches 1
at the bottom row; the bottom row is y = size - 1 = 1023, where the
fraction is 1023/1024 ≠ 1. -/
theorem c4_counterexample :
    gradProgress (size - 1) = 1023 / 1024 ∧ gradProgress (size - 1) ≠ 1 := by
  constructor <;> norm_num [gradProgress, size]

/-- C4 amended: for every row y the fraction is y/size — 0 at the top row
and 1023/1024 (not 1) at the bottom row — the two endpoints (100,50,255)
and (40,100,255) are blended by it with integer truncation, and the row is
painted as a full-width rectangle at height y with that fully opaque
color. -/
theorem c4_amended_gradient_row (y : ℕ) (hy : y < size) :
    gradProgress y = (y : ℚ) / 1024 ∧
    gradProgress 0 = 0 ∧
    gradProgress (size - 1) = 1023 / 1024 ∧
    gradR y = ⌊(100 : ℚ) * (1 - gradProgress y) + 40 * gradProgress y⌋ ∧
    gradG y = ⌊(50 : ℚ) * (1 - gradProgress y) + 100 * gradProgress y⌋ ∧
    gradB y = 255 ∧
    gradientEvents[y]? = some (Event.rect 0 (y : ℤ) (size : ℤ) ((y : ℤ) + 1)
      ⟨gradR y, gradG y, gradB y, 255⟩) := by
  refine ⟨by norm_num [gradProgress, size], by norm_num [gradProgress],
    by norm_num [gradProgress, size], rfl, rfl, gradB_eq y, ?_⟩
  simp [gradientEvents, List.getElem?_map, List.getElem?_range, hy]

/-- Witness for the amended C4 at the top row. -/
theorem c4_amended_gradient_row_witness :
    0 < size ∧
    (gradProgress 0 = ((0 : ℕ) : ℚ) / 1024 ∧
     gradProgress 0 = 0 ∧
     gradProgress (size - 1) = 1023 / 1024 ∧
     gradR 0 = ⌊(100 : ℚ) * (1 - gradProgress 0) + 40 * gradProgress 0⌋ ∧
     gradG 0 = ⌊(50 : ℚ) * (1 - gradProgress 0) + 100 * gradProgress 0⌋ ∧
     gradB 0 = 255 ∧
     gradientEvents[0]? = some (Event.rect 0 ((0 : ℕ) : ℤ) (size : ℤ) (((0 : ℕ) : ℤ) + 1)
       ⟨gradR 0, gradG 0, gradB 0, 255⟩)) :=
  ⟨by norm_num [size], c4_amended_gradient_row 0 (by norm_num [size])⟩

/-- C5: the vignette draws outlines at radius i running from size//4 = 256
down to 1 in steps of 1, each with alpha int(255 * (1 - i/(size//4)) * 0.3),
as concentric ellipses around the canvas center. -/
theorem c5_vignette_radii_and_alpha :
    vignetteRadii.head? = some (size / 4) ∧
    vignetteRadii.getLast? = some 1 ∧
    List.Chain' (fun a b => a > b) vignetteRadii ∧
    (∀ i : ℕ, vigAlpha i = ⌊(255 : ℚ) * (1 - (i : ℚ) / ((size / 4 : ℕ) : ℚ)) * (3 / 10)⌋) ∧
    vignetteEvents = vignetteRadii.map (fun (i : ℕ) =>
      Event.ellipse (half - (i : ℤ)) (half - (i : ℤ)) (half + (i : ℤ)) (half + (i : ℤ))
        ⟨255, 255, 255, vigAlpha i⟩ 2) := by
  refine ⟨by decide, by decide, ?_, fun i => rfl, rfl⟩
  rw [vignetteRadii, List.chain'_map, show maxRadius = 255 + 1 from rfl,
    List.chain'_range_succ]
  intro m hm
  omega

/-- C6: the glyph placement is x = (size - w) // 2 and
y = (size - h) // 2 - h // 10 for the measured bounding-box width w and
height h, with // being floor division. -/
theorem c6_glyph_placement (e : Env) :
    textWidth e = e.bboxRight - e.bboxLeft ∧
    textHeight e = e.bboxBottom - e.bboxTop ∧
    textX e = Int.fdiv ((size : ℤ) - textWidth e) 2 ∧
    textY e = Int.fdiv ((size : ℤ) - textHeight e) 2 - Int.fdiv (textHeight e) 10 ∧
    textX e = ⌊((((size : ℤ) - textWidth e) : ℤ) : ℚ) / 2⌋ ∧
    textY e = ⌊((((size : ℤ) - textHeight e) : ℤ) : ℚ) / 2⌋
        - ⌊(((textHeight e) : ℤ) : ℚ) / 10⌋ := by
  refine ⟨rfl, rfl, rfl, rfl, fdiv_two_eq_floor _, ?_⟩
  rw [textY, fdiv_two_eq_floor, fdiv_ten_eq_floor]

/-- C7: the metadata document contains exactly one image entry carrying the
literal field values, an info record author=xcode / version=1, and equals
the concrete JSON object of the concrete scenario in the spec. -/
theorem c7_metadata_document :
    contents.lookupField "images" = some (Json.arr [Json.obj
      [("filename", Json.str "AppIcon.png"), ("idiom", Json.str "universal"),
       ("platform", Json.str "ios"), ("size", Json.str "1024x1024")]]) ∧
    contents.lookupField "info" = some (Json.obj
      [("author", Json.str "xcode"), ("version", Json.num 1)]) ∧
    contents = specScenarioContents :=
  ⟨rfl, rfl, rfl⟩

/-- C8: on the success path the metadata bytes written are the same for any
two runs, whatever the font engine reported, and equal the serialization of
the constant document. -/
theorem c8_metadata_run_independent (e₁ e₂ : Env)
    (h₁ : e₁.pil = true) (h₂ : e₂.pil = true) :
    metadataWritesOf (scriptWrites e₁) = metadataWritesOf (scriptWrites e₂) ∧
    metadataWritesOf (scriptWrites e₁) = [contentsDump] := by
  rw [scriptWrites_of_pil h₁, scriptWrites_of_pil h₂,
    metadataWritesOf_create, metadataWritesOf_create]
  exact ⟨rfl, rfl⟩

/-- Witness for C8 at two concrete success-path environments with different
glyph metrics. -/
theorem c8_metadata_run_independent_witness :
    (Env.mk true 0 0 0 0).pil = true ∧ (Env.mk true 1 2 3 4).pil = true ∧
    (metadataWritesOf (scriptWrites (Env.mk true 0 0 0 0))
        = metadataWritesOf (scriptWrites (Env.mk true 1 2 3 4)) ∧
     metadataWritesOf (scriptWrites (Env.mk true 0 0 0 0)) = [contentsDump]) :=
  ⟨rfl, rfl, c8_metadata_run_independent (Env.mk true 0 0 0 0) (Env.mk true 1 2 3 4) rfl rfl⟩

/-- C9: the first glow pass (offset 10) has alpha 0 (fully transparent),
and every glow pass alpha is at most 114, strictly below half opacity
128; the largest (offset 1) is exactly 114. -/
theorem c9_glow_alpha_bounds :
    glowOffsets.map glowAlpha = [0, 12, 25, 38, 51, 63, 76, 89, 102, 114] ∧
    glowAlpha 10 = 0 ∧
    (glowOffsets.map glowAlpha).all (fun a => decide (a ≤ 114)) = true ∧
    glowAlpha 1 = 114 ∧ (114 : ℤ) < 128 := by
  refine ⟨glowAlpha_values, by norm_num [glowAlpha], ?_, by norm_num [glowAlpha], by norm_num⟩
  rw [glowAlpha_values]
  rfl

/-- C10: every gradient row is painted fully opaque with blue channel 255,
the top row is exactly (100, 50, 255, 255), the green channel never reaches
100 — so the bottom endpoint color (40, 100, 255) is never painted — and
the interpolation fraction never reaches 1. -/
theorem c10_gradient_invariants (y : ℕ) (hy : y < size) :
    gradB y = 255 ∧
    gradientEvents[y]? = some (Event.rect 0 (y : ℤ) (size : ℤ) ((y : ℤ) + 1)
      ⟨gradR y, gradG y, gradB y, 255⟩) ∧
    (gradR 0 = 100 ∧ gradG 0 = 50 ∧ gradB 0 = 255) ∧
    gradG y < 100 ∧
    ¬ (gradR y = 40 ∧ gradG y = 100) ∧
    gradProgress y < 1 ∧ gradProgress y ≠ 1 := by
  have hg := gradG_lt_100 y hy
  have hp := gradProgress_lt_one y hy
  refine ⟨gradB_eq y, ?_, ⟨?_, ?_, gradB_eq 0⟩, hg, ?_, hp, ne_of_lt hp⟩
  · simp [gradientEvents, List.getElem?_map, List.getElem?_range, hy]
  · norm_num [gradR, gradProgress]
  · norm_num [gradG, gradProgress]
  · rintro ⟨_, hG100⟩
    omega

/-- Witness for C10 at the top row. -/
theorem c10_gradient_invariants_witness :
    0 < size ∧
    (gradB 0 = 255 ∧
     gradientEvents[0]? = some (Event.rect 0 ((0 : ℕ) : ℤ) (size : ℤ) (((0 : ℕ) : ℤ) + 1)
       ⟨gradR 0, gradG 0, gradB 0, 255⟩) ∧
     (gradR 0 = 100 ∧ gradG 0 = 50 ∧ gradB 0 = 255) ∧
     gradG 0 < 100 ∧
     ¬ (gradR 0 = 40 ∧ gradG 0 = 100) ∧
     gradProgress 0 < 1 ∧ gradProgress 0 ≠ 1) :=
  ⟨by norm_num [size], c10_gradient_invariants 0 (by norm_num [size])⟩

end CreateIcon
